import Mathlib

/-!
Shallow embedding of the music track/playlist manager (src/code/noop10_1.py,
with src/code/noop10_2.py an identical core that differs only in how console
output is produced).

Modelling conventions:
  * Python `timedelta` durations are modelled in whole seconds as `Int`
    (all durations the program builds come from integer minute/second/hour
    parts, and the claims under verification restrict themselves to
    whole-second durations; fractional timedeltas are outside the model).
  * JSON values are the inductive `Json`; `int` payloads only (the program
    never writes JSON floats).
  * Python string helpers (`strip`, `lower`, `split(":")`, `int(...)`,
    decimal formatting) are re-implemented on `List Char` so that every
    definition evaluates inside the kernel.  `pyStrip` strips the ASCII
    whitespace characters Python's `str.strip` strips (the Unicode-only
    space classes never occur in the data under test); `pyLowerChar`
    lowercases ASCII letters (Python also lowercases non-ASCII letters; the
    artist comparisons under test are ASCII).  `parseIntChars` accepts an
    optional sign followed by ASCII digits (Python `int` additionally
    accepts surrounding whitespace and underscores; no claim depends on
    those inputs).
  * Exceptions become `Except TrackErr`: the distinct `ValueError` messages
    raised by `Track.__post_init__` become the four validation
    constructors, the duration-format `ValueError` of `Track.from_dict`
    becomes `formatError`, the `ValueError` of `int(...)` becomes
    `intParseError`, and the `KeyError`/`TypeError`/`AttributeError` family
    raised when a record holds values of the wrong shape becomes
    `keyError`/`typeError` (only their occurrence is observable: the one
    caller, `load_from_json`, catches them all alike).
-/

/-- Python `str.strip` whitespace test for the ASCII whitespace characters. -/
def pyIsSpace (c : Char) : Bool :=
  c = ' ' || c = '\t' || c = '\n' || c = '\x0d' || c = '\x0b' || c = '\x0c'

/-- Python `str.strip`: drop leading and trailing whitespace. -/
def pyStrip (s : String) : String :=
  String.mk (((s.data.dropWhile pyIsSpace).reverse.dropWhile pyIsSpace).reverse)

/-- Python `str.lower` on one character (ASCII letters). -/
def pyLowerChar (c : Char) : Char :=
  if 'A' ≤ c ∧ c ≤ 'Z' then Char.ofNat (c.toNat + 32) else c

/-- Python `str.lower`. -/
def pyLower (s : String) : String :=
  String.mk (s.data.map pyLowerChar)

/-- Decimal value of a digit string (most significant first). -/
def digitsVal (cs : List Char) : Nat :=
  cs.foldl (fun a c => a * 10 + (c.toNat - 48)) 0

/-- Decimal digits of `n`, most significant first; the first argument is
structural fuel (`n` itself is always enough). -/
def natDigitsAux : Nat → Nat → List Char
  | _, 0 => []
  | 0, _ => []
  | fuel + 1, n + 1 =>
    natDigitsAux fuel ((n + 1) / 10) ++ [Nat.digitChar ((n + 1) % 10)]

/-- Python `str(n)` for a natural number, as characters. -/
def pyNatChars (n : Nat) : List Char :=
  if n = 0 then ['0'] else natDigitsAux n n

/-- Python `str(i)` for an integer, as characters. -/
def pyIntChars (i : Int) : List Char :=
  if i < 0 then '-' :: pyNatChars i.natAbs else pyNatChars i.toNat

/-- Python `f"{i:02d}"`: zero-pad to a minimum width of two characters. -/
def pyFmt02Chars (i : Int) : List Char :=
  if 0 ≤ i ∧ i < 10 then '0' :: pyIntChars i else pyIntChars i

/-- Python `int(s)` on a character list: optional sign then ASCII digits. -/
def parseIntChars : List Char → Option Int
  | [] => none
  | c :: rest =>
    if c = '-' then
      if rest ≠ [] ∧ rest.all Char.isDigit then some (-(digitsVal rest : Int)) else none
    else if c = '+' then
      if rest ≠ [] ∧ rest.all Char.isDigit then some ((digitsVal rest : Int)) else none
    else if (c :: rest).all Char.isDigit then some ((digitsVal (c :: rest) : Int)) else none

/-- Python `int(s)`. -/
def parseInt (s : String) : Option Int :=
  parseIntChars s.data

/-- Python `s.split(sep)` for a one-character separator, on character lists.
`[] ↦ [[]]`, matching Python's `"".split(":") == [""]`. -/
def pySplitChars (sep : Char) : List Char → List (List Char)
  | [] => [[]]
  | c :: rest =>
    let r := pySplitChars sep rest
    if c = sep then [] :: r else (c :: r.headD []) :: r.tail

/-- Python `s.split(":")`. -/
def pySplitColon (s : String) : List String :=
  (pySplitChars ':' s.data).map String.mk

/-- JSON values as Python's `json` module produces them (integer numbers
only: the program never writes floats). -/
inductive Json where
  | null : Json
  | bool : Bool → Json
  | num : Int → Json
  | str : String → Json
  | arr : List Json → Json
  | obj : List (String × Json) → Json

/-- Python `dict.get` / `dict[...]` on a JSON object's key-value list
(Python dict keys are unique, so first match suffices). -/
def jlookup (kvs : List (String × Json)) (k : String) : Option Json :=
  (kvs.find? (fun kv => kv.1 = k)).map (fun kv => kv.2)

/-- Python `for x in v` over a JSON value: lists yield their elements,
strings their one-character substrings, dicts their keys; iterating any
other value raises `TypeError` (`none`). -/
def jsonIter : Json → Option (List Json)
  | Json.arr xs => some xs
  | Json.str s => some (s.data.map (fun c => Json.str (String.mk [c])))
  | Json.obj kvs => some (kvs.map (fun kv => Json.str kv.1))
  | _ => none

/-- MusicGenre enumeration (noop10_1.py lines 14-27), in declared order. -/
inductive MusicGenre where
  | POP | ROCK | JAZZ | HIP_HOP | ELECTRONIC | CLASSICAL
  | COUNTRY | RNB | METAL | INDIE | OTHER
deriving DecidableEq

/-- The display label (`.value`) of each genre. -/
def MusicGenre.value : MusicGenre → String
  | .POP => "Поп"
  | .ROCK => "Рок"
  | .JAZZ => "Джаз"
  | .HIP_HOP => "Хип-хоп"
  | .ELECTRONIC => "Электронная"
  | .CLASSICAL => "Классическая"
  | .COUNTRY => "Кантри"
  | .RNB => "R&B"
  | .METAL => "Метал"
  | .INDIE => "Инди"
  | .OTHER => "Другое"

/-- Iteration order of `for g in MusicGenre`: the declaration order. -/
def MusicGenre.all : List MusicGenre :=
  [.POP, .ROCK, .JAZZ, .HIP_HOP, .ELECTRONIC, .CLASSICAL,
   .COUNTRY, .RNB, .METAL, .INDIE, .OTHER]

/-- Track record (noop10_1.py lines 30-38); `duration` is the timedelta in
whole seconds. -/
structure Track where
  title : String
  artist : String
  duration : Int
  genre : MusicGenre
  year : Option Int
deriving DecidableEq

/-- The distinct exceptions observable from `Track` construction and
`Track.from_dict` (see the module comment for the correspondence). -/
inductive TrackErr where
  | emptyTitle
  | emptyArtist
  | nonPositiveDuration
  | yearOutOfRange
  | formatError : String → TrackErr
  | intParseError
  | keyError : String → TrackErr
  | typeError
deriving DecidableEq

/-- Python `Track(title, artist, duration, genre, year)` including
`__post_init__` validation (noop10_1.py lines 40-49), checks in source
order: title, artist, duration, year. -/
def Track.construct (title artist : String) (duration : Int)
    (genre : MusicGenre) (year : Option Int) : Except TrackErr Track :=
  if pyStrip title = "" then .error .emptyTitle
  else if pyStrip artist = "" then .error .emptyArtist
  else if duration ≤ 0 then .error .nonPositiveDuration
  else
    match year with
    | some y =>
      if y < 1900 ∨ y > 2100 then .error .yearOutOfRange
      else .ok ⟨title, artist, duration, genre, year⟩
    | none => .ok ⟨title, artist, duration, genre, year⟩

/-- `Track.duration_seconds` (noop10_1.py lines 59-62): in the whole-second
model, `int(total_seconds())` is the stored value. -/
def Track.duration_seconds (t : Track) : Int :=
  t.duration

/-- `Track.duration_str` (noop10_1.py lines 51-57): `f"{ts // 60:02d}:{ts % 60:02d}"`
with Python's floor division and modulus. -/
def Track.duration_str (t : Track) : String :=
  String.mk (pyFmt02Chars (Int.fdiv t.duration 60) ++ ':' :: pyFmt02Chars (Int.fmod t.duration 60))

/-- `Track.to_dict` (noop10_1.py lines 64-72). -/
def Track.to_dict (t : Track) : Json :=
  Json.obj
    [("title", Json.str t.title),
     ("artist", Json.str t.artist),
     ("duration", Json.str t.duration_str),
     ("genre", Json.str t.genre.value),
     ("year", match t.year with | some y => Json.num y | none => Json.null)]

/-- Duration-text parsing of `Track.from_dict` (noop10_1.py lines 78-86):
split on `:`; 2 parts → minutes:seconds, 3 parts → hours:minutes:seconds,
any other count → the format `ValueError`; a non-integer part raises the
`ValueError` of `int(...)`. -/
def parse_duration (ds : String) : Except TrackErr Int :=
  match pySplitColon ds with
  | [m, s] =>
    match parseInt m, parseInt s with
    | some mi, some si => .ok (mi * 60 + si)
    | _, _ => .error .intParseError
  | [h, m, s] =>
    match parseInt h, parseInt m, parseInt s with
    | some hi, some mi, some si => .ok (hi * 3600 + mi * 60 + si)
    | _, _, _ => .error .intParseError
  | _ => .error (.formatError ds)

/-- Genre resolution of `Track.from_dict` (noop10_1.py lines 88-94): scan
`MusicGenre` in declared order for `g.value == genre_value`, starting from
`OTHER`; a non-string value compares unequal to every label. -/
def lookup_genre (v : Json) : MusicGenre :=
  match v with
  | Json.str s => (MusicGenre.all.find? (fun g => g.value = s)).getD MusicGenre.OTHER
  | _ => MusicGenre.OTHER

/-- The `year` argument `data.get("year")` passes to the constructor:
absent or JSON null → `None`; an integer is used as-is; a Python bool is an
int (`True == 1`, `False == 0`); any other value raises `TypeError` inside
the year comparison of `__post_init__`. -/
def year_from_json : Option Json → Except TrackErr (Option Int)
  | none => .ok none
  | some Json.null => .ok none
  | some (Json.num n) => .ok (some n)
  | some (Json.bool b) => .ok (some (if b then 1 else 0))
  | some _ => .error .typeError

/-- `Track.from_dict` (noop10_1.py lines 74-102): duration is parsed first,
then the genre is resolved, then `cls(...)` runs with
`title=data["title"]`, `artist=data["artist"]`, `year=data.get("year")`
and `__post_init__` validates.  A non-dict record, a missing key, or a
value of the wrong shape raises (`TypeError`/`KeyError`/`AttributeError`),
collapsed here to `keyError`/`typeError`. -/
def Track.from_dict (data : Json) : Except TrackErr Track :=
  match data with
  | Json.obj kvs =>
    match jlookup kvs "duration" with
    | none => .error (.keyError "duration")
    | some (Json.str ds) =>
      match parse_duration ds with
      | .error e => .error e
      | .ok dur =>
        let genre := lookup_genre ((jlookup kvs "genre").getD (Json.str "Другое"))
        match jlookup kvs "title" with
        | none => .error (.keyError "title")
        | some (Json.str ti) =>
          match jlookup kvs "artist" with
          | none => .error (.keyError "artist")
          | some (Json.str ar) =>
            match year_from_json (jlookup kvs "year") with
            | .error e => .error e
            | .ok yr => Track.construct ti ar dur genre yr
          | some _ => .error .typeError
        | some _ => .error .typeError
    | some _ => .error .typeError
  | _ => .error .typeError

/-- Playlist (noop10_1.py lines 113-118).  The `name` field is `str` in the
source, but `load_from_json` re-assigns it from `data.get("playlist_name",
self.name)`, which Python lets be any JSON value; it is therefore modelled
as `Json` (a string-named playlist has `name = Json.str ...`). -/
structure Playlist where
  name : Json
  tracks : List Track

/-- `Playlist.add_track` (lines 120-122). -/
def Playlist.add_track (p : Playlist) (t : Track) : Playlist :=
  { p with tracks := p.tracks ++ [t] }

/-- `Playlist.get_tracks_by_artist` (lines 136-139): the query is stripped
and lowercased, each track's artist only lowercased. -/
def Playlist.get_tracks_by_artist (p : Playlist) (artist : String) : List Track :=
  let artist_lower := pyLower (pyStrip artist)
  p.tracks.filter (fun t => pyLower t.artist == artist_lower)

/-- `Playlist.get_tracks_by_genre` (lines 141-143). -/
def Playlist.get_tracks_by_genre (p : Playlist) (genre : MusicGenre) : List Track :=
  p.tracks.filter (fun t => t.genre == genre)

/-- The `genres` entry of `Playlist.get_statistics` (lines 184-188): one
dict insertion per genre with at least one track, iterating `MusicGenre`
in declared order. -/
def Playlist.statistics_genres (p : Playlist) : List (String × Nat) :=
  MusicGenre.all.filterMap (fun g =>
    let count := (p.get_tracks_by_genre g).length
    if 0 < count then some (g.value, count) else none)

/-- `Playlist.save_to_json` (lines 212-227): the JSON document written on
the success path (I/O failures happen outside the data model). -/
def Playlist.save_to_json (p : Playlist) : Json :=
  Json.obj
    [("playlist_name", p.name),
     ("tracks", Json.arr (p.tracks.map Track.to_dict))]

/-- Outcome of `Playlist.load_from_json`: the returned bool, the playlist
state afterwards, and how many per-record warnings were printed. -/
structure LoadResult where
  ok : Bool
  playlist : Playlist
  skipped : Nat

/-- The per-record loop of `load_from_json` (lines 238-243): records whose
`Track.from_dict` raises are skipped with a warning, the rest are appended
in order. -/
def loadTracks : List Json → List Track × Nat
  | [] => ([], 0)
  | j :: rest =>
    let r := loadTracks rest
    match Track.from_dict j with
    | .ok t => (t :: r.1, r.2)
    | .error _ => (r.1, r.2 + 1)

/-- `Playlist.load_from_json` (lines 229-256).  The `parsed` argument is
the outcome of `open` + `json.load`: `none` when that raises
(`FileNotFoundError`, `json.JSONDecodeError`, or an I/O error), `some v`
when the file parsed to `v`.  A non-dict top level raises `AttributeError`
at `data.get` (caught, state untouched); after a dict top level the name
is re-assigned and the track list cleared, and a non-iterable `tracks`
value raises `TypeError` at the `for` (caught, but the mutation stands). -/
def Playlist.load_from_json (p : Playlist) (parsed : Option Json) : LoadResult :=
  match parsed with
  | none => ⟨false, p, 0⟩
  | some (Json.obj kvs) =>
    let nm := (jlookup kvs "playlist_name").getD p.name
    match jsonIter ((jlookup kvs "tracks").getD (Json.arr [])) with
    | none => ⟨false, ⟨nm, []⟩, 0⟩
    | some items =>
      let r := loadTracks items
      ⟨true, ⟨nm, r.1⟩, r.2⟩
  | some _ => ⟨false, p, 0⟩

/-- The construction invariants of the specification: title and artist
non-empty after trimming, strictly positive whole-second duration, year
absent or in [1900, 2100]. -/
def Track.Valid (t : Track) : Prop :=
  pyStrip t.title ≠ "" ∧ pyStrip t.artist ≠ "" ∧ 0 < t.duration ∧
    ∀ z ∈ t.year, 1900 ≤ z ∧ z ≤ 2100

deriving instance DecidableEq for Except

/-! ### Decimal rendering and parsing -/

theorem digitsVal_append (a : List Char) (c : Char) :
    digitsVal (a ++ [c]) = digitsVal a * 10 + (c.toNat - 48) := by
  simp [digitsVal, List.foldl_append]

theorem digitChar_toNat {d : Nat} (h : d < 10) : (Nat.digitChar d).toNat - 48 = d := by
  interval_cases d <;> decide

theorem digitChar_isDigit {d : Nat} (h : d < 10) : (Nat.digitChar d).isDigit := by
  interval_cases d <;> decide

theorem natDigitsAux_val : ∀ fuel n, n ≤ fuel → digitsVal (natDigitsAux fuel n) = n := by
  intro fuel
  induction fuel with
  | zero =>
    intro n hn
    interval_cases n
    rfl
  | succ f ih =>
    intro n hn
    match n with
    | 0 => rfl
    | m + 1 =>
      rw [natDigitsAux, digitsVal_append,
        ih ((m + 1) / 10) (by omega), digitChar_toNat (Nat.mod_lt _ (by omega))]
      omega

theorem natDigitsAux_digits : ∀ fuel n c, c ∈ natDigitsAux fuel n → c.isDigit := by
  intro fuel
  induction fuel with
  | zero =>
    intro n c hc
    match n with
    | 0 => simp [natDigitsAux] at hc
    | m + 1 => simp [natDigitsAux] at hc
  | succ f ih =>
    intro n c hc
    match n with
    | 0 => simp [natDigitsAux] at hc
    | m + 1 =>
      rw [natDigitsAux] at hc
      rcases List.mem_append.mp hc with h | h
      · exact ih _ _ h
      · rcases List.mem_singleton.mp h with rfl
        exact digitChar_isDigit (Nat.mod_lt _ (by omega))

theorem natDigitsAux_ne_nil (fuel n : Nat) (h1 : 0 < n) (h2 : n ≤ fuel) :
    natDigitsAux fuel n ≠ [] := by
  cases fuel with
  | zero => omega
  | succ f =>
    cases n with
    | zero => omega
    | succ m => rw [natDigitsAux]; simp

theorem natDigitsAux_zero (fuel : Nat) : natDigitsAux fuel 0 = [] := by
  cases fuel <;> rfl

theorem natDigitsAux_fuel : ∀ f1 f2 n, n ≤ f1 → n ≤ f2 →
    natDigitsAux f1 n = natDigitsAux f2 n := by
  intro f1
  induction f1 with
  | zero =>
    intro f2 n h1 h2
    interval_cases n
    rw [natDigitsAux_zero, natDigitsAux_zero]
  | succ g1 ih =>
    intro f2 n h1 h2
    cases n with
    | zero => rw [natDigitsAux_zero, natDigitsAux_zero]
    | succ m =>
      cases f2 with
      | zero => omega
      | succ g2 =>
        rw [natDigitsAux, natDigitsAux, ih g2 ((m + 1) / 10) (by omega) (by omega)]

theorem natDigitsAux_len1 (fuel n : Nat) (h1 : 1 ≤ n) (h2 : n ≤ 9) (h3 : n ≤ fuel) :
    (natDigitsAux fuel n).length = 1 := by
  cases fuel with
  | zero => omega
  | succ f =>
    cases n with
    | zero => omega
    | succ m =>
      rw [natDigitsAux]
      have hq : (m + 1) / 10 = 0 := by omega
      rw [hq, natDigitsAux_zero]
      simp

theorem natDigitsAux_len2 (fuel n : Nat) (h1 : 10 ≤ n) (h2 : n ≤ 99) (h3 : n ≤ fuel) :
    (natDigitsAux fuel n).length = 2 := by
  cases fuel with
  | zero => omega
  | succ f =>
    cases n with
    | zero => omega
    | succ m =>
      rw [natDigitsAux, List.length_append,
        natDigitsAux_len1 f ((m + 1) / 10) (by omega) (by omega) (by omega)]
      simp

theorem pyNatChars_val (n : Nat) : digitsVal (pyNatChars n) = n := by
  unfold pyNatChars
  split
  · simp_all [digitsVal]
  · exact natDigitsAux_val n n le_rfl

theorem pyNatChars_digits (n : Nat) : ∀ c ∈ pyNatChars n, c.isDigit := by
  unfold pyNatChars
  split
  · intro c hc
    rcases List.mem_singleton.mp hc with rfl
    decide
  · exact natDigitsAux_digits n n

theorem pyNatChars_ne_nil (n : Nat) : pyNatChars n ≠ [] := by
  unfold pyNatChars
  split
  · simp
  · exact natDigitsAux_ne_nil n n (by omega) le_rfl

theorem parseIntChars_of_digits (cs : List Char) (h1 : cs ≠ [])
    (h2 : ∀ c ∈ cs, c.isDigit) : parseIntChars cs = some ((digitsVal cs : Nat) : Int) := by
  match cs with
  | c :: rest =>
    have hc : c.isDigit := h2 c (List.mem_cons_self c rest)
    have hminus : ¬(c = '-') := by rintro rfl; simp [Char.isDigit] at hc
    have hplus : ¬(c = '+') := by rintro rfl; simp [Char.isDigit] at hc
    have hall : (c :: rest).all Char.isDigit := by
      rw [List.all_eq_true]; intro x hx; exact h2 x hx
    rw [parseIntChars, if_neg hminus, if_neg hplus, if_pos hall]

theorem digitsVal_cons_zero (l : List Char) : digitsVal ('0' :: l) = digitsVal l := rfl

theorem pyNatChars_len1 (n : Nat) (h : n ≤ 9) : (pyNatChars n).length = 1 := by
  unfold pyNatChars
  split
  · simp
  · exact natDigitsAux_len1 n n (by omega) h le_rfl

/-- `pyIntChars` and `pyFmt02Chars` on a natural number. -/
theorem pyIntChars_natCast (n : Nat) : pyIntChars (n : Int) = pyNatChars n := by
  unfold pyIntChars
  rw [if_neg (by omega)]
  norm_num

theorem pyFmt02Chars_natCast (n : Nat) :
    pyFmt02Chars (n : Int) = if n < 10 then '0' :: pyNatChars n else pyNatChars n := by
  unfold pyFmt02Chars
  rw [pyIntChars_natCast]
  by_cases h : n < 10
  · rw [if_pos (by constructor <;> omega), if_pos h]
  · rw [if_neg (by omega), if_neg h]

theorem pyFmt02Chars_digits (n : Nat) : ∀ c ∈ pyFmt02Chars (n : Int), c.isDigit := by
  rw [pyFmt02Chars_natCast]
  split
  · intro c hc
    rcases List.mem_cons.mp hc with rfl | h
    · decide
    · exact pyNatChars_digits n c h
  · exact pyNatChars_digits n

theorem pyFmt02Chars_ne_nil (n : Nat) : pyFmt02Chars (n : Int) ≠ [] := by
  rw [pyFmt02Chars_natCast]
  split
  · simp
  · exact pyNatChars_ne_nil n

theorem pyFmt02Chars_parse (n : Nat) :
    parseIntChars (pyFmt02Chars (n : Int)) = some ((n : Nat) : Int) := by
  rw [pyFmt02Chars_natCast]
  split
  · rw [parseIntChars_of_digits _ (by simp)
      (by intro c hc; rcases List.mem_cons.mp hc with rfl | h;
          · decide
          · exact pyNatChars_digits n c h)]
    rw [digitsVal_cons_zero, pyNatChars_val]
  · rw [parseIntChars_of_digits _ (pyNatChars_ne_nil n) (pyNatChars_digits n), pyNatChars_val]

theorem pyFmt02Chars_no_colon (n : Nat) : ':' ∉ pyFmt02Chars (n : Int) := by
  intro h
  have := pyFmt02Chars_digits n ':' h
  simp [Char.isDigit] at this

theorem pyFmt02Chars_len_ge2 (n : Nat) : 2 ≤ (pyFmt02Chars (n : Int)).length := by
  rw [pyFmt02Chars_natCast]
  split
  · have := pyNatChars_ne_nil n
    have := List.length_pos.mpr this
    simp only [List.length_cons]
    omega
  · rename_i h
    unfold pyNatChars
    rw [if_neg (by omega)]
    match n, h with
    | m + 1, h =>
      rw [natDigitsAux]
      rw [List.length_append]
      have h10 : 0 < (m + 1) / 10 := by omega
      have := List.length_pos.mpr (natDigitsAux_ne_nil m ((m + 1) / 10) h10 (by omega))
      simp only [List.length_cons, List.length_nil]
      omega

theorem pyFmt02Chars_len2 (n : Nat) (h : n ≤ 59) : (pyFmt02Chars (n : Int)).length = 2 := by
  rw [pyFmt02Chars_natCast]
  by_cases h10 : n < 10
  · rw [if_pos h10]
    rw [List.length_cons, pyNatChars_len1 n (by omega)]
  · rw [if_neg h10]
    unfold pyNatChars
    rw [if_neg (by omega)]
    exact natDigitsAux_len2 n n (by omega) (by omega) le_rfl

/-! ### Splitting -/

theorem pySplitChars_ne_nil (sep : Char) : ∀ l, pySplitChars sep l ≠ [] := by
  intro l
  induction l with
  | nil => simp [pySplitChars]
  | cons c rest ih =>
    rw [pySplitChars]
    split <;> simp

theorem pySplitChars_no_sep (sep : Char) : ∀ l, sep ∉ l → pySplitChars sep l = [l] := by
  intro l
  induction l with
  | nil => intro _; rfl
  | cons c rest ih =>
    intro h
    rw [pySplitChars, if_neg (by intro hc; exact h (hc ▸ List.mem_cons_self c rest)),
      ih (fun hm => h (List.mem_cons_of_mem c hm))]
    rfl

theorem pySplitChars_append (sep : Char) :
    ∀ a b, sep ∉ a → pySplitChars sep (a ++ sep :: b) = a :: pySplitChars sep b := by
  intro a
  induction a with
  | nil =>
    intro b _
    rw [List.nil_append, pySplitChars, if_pos rfl]
  | cons c a' ih =>
    intro b h
    rw [List.cons_append, pySplitChars,
      if_neg (by intro hc; exact h (hc ▸ List.mem_cons_self c a')),
      ih b (fun hm => h (List.mem_cons_of_mem c hm))]
    rfl

/-! ### Duration rendering and parsing round trip -/

theorem int_fdiv_60 (a : Nat) : Int.fdiv (a : Int) 60 = ((a / 60 : Nat) : Int) := by
  rw [Int.fdiv_eq_ediv _ (by omega)]
  push_cast
  rfl

theorem int_fmod_60 (a : Nat) : Int.fmod (a : Int) 60 = ((a % 60 : Nat) : Int) := by
  rw [Int.fmod_eq_emod _ (by omega)]
  push_cast
  rfl

theorem duration_str_data (t : Track) (n : Nat) (hn : t.duration = (n : Int)) :
    t.duration_str.data =
      pyFmt02Chars ((n / 60 : Nat) : Int) ++ ':' :: pyFmt02Chars ((n % 60 : Nat) : Int) := by
  rw [Track.duration_str, hn, int_fdiv_60, int_fmod_60]

theorem pySplitColon_duration_str (t : Track) (n : Nat) (hn : t.duration = (n : Int)) :
    pySplitColon t.duration_str =
      [String.mk (pyFmt02Chars ((n / 60 : Nat) : Int)),
       String.mk (pyFmt02Chars ((n % 60 : Nat) : Int))] := by
  rw [pySplitColon, duration_str_data t n hn,
    pySplitChars_append ':' _ _ (pyFmt02Chars_no_colon _),
    pySplitChars_no_sep ':' _ (pyFmt02Chars_no_colon _)]
  rfl

theorem parse_duration_two (ds a b : String) (hsplit : pySplitColon ds = [a, b])
    (x y : Int) (ha : parseInt a = some x) (hb : parseInt b = some y) :
    parse_duration ds = .ok (x * 60 + y) := by
  simp only [parse_duration, hsplit, ha, hb]

theorem parse_duration_three (ds a b c : String) (hsplit : pySplitColon ds = [a, b, c])
    (x y z : Int) (ha : parseInt a = some x) (hb : parseInt b = some y)
    (hc : parseInt c = some z) :
    parse_duration ds = .ok (x * 3600 + y * 60 + z) := by
  simp only [parse_duration, hsplit, ha, hb, hc]

theorem parse_duration_bad_parts (ds : String) (h2 : (pySplitColon ds).length ≠ 2)
    (h3 : (pySplitColon ds).length ≠ 3) :
    parse_duration ds = .error (.formatError ds) := by
  rw [parse_duration]
  match h : pySplitColon ds with
  | [] => rfl
  | [a] => rfl
  | [a, b] => rw [h] at h2; simp at h2
  | [a, b, c] => rw [h] at h3; simp at h3
  | a :: b :: c :: d :: rest => rfl

theorem parse_duration_duration_str (t : Track) (h : 0 < t.duration) :
    parse_duration t.duration_str = .ok t.duration := by
  obtain ⟨n, hn⟩ : ∃ n : Nat, t.duration = (n : Int) :=
    ⟨t.duration.toNat, (Int.toNat_of_nonneg (le_of_lt h)).symm⟩
  rw [parse_duration_two t.duration_str _ _ (pySplitColon_duration_str t n hn)
    ((n / 60 : Nat) : Int) ((n % 60 : Nat) : Int)
    (pyFmt02Chars_parse _) (pyFmt02Chars_parse _), hn]
  congr 1
  push_cast
  omega

/-! ### Construction -/

theorem construct_ok (title artist : String) (d : Int) (g : MusicGenre) (y : Option Int)
    (h1 : pyStrip title ≠ "") (h2 : pyStrip artist ≠ "") (h3 : 0 < d)
    (h4 : ∀ z ∈ y, 1900 ≤ z ∧ z ≤ 2100) :
    Track.construct title artist d g y = .ok ⟨title, artist, d, g, y⟩ := by
  rw [Track.construct.eq_def, if_neg h1, if_neg h2, if_neg (by omega)]
  cases y with
  | none => rfl
  | some z =>
    have hz := h4 z rfl
    have hno : ¬(z < 1900 ∨ z > 2100) := by omega
    simp only [if_neg hno]

theorem construct_ok_inv (title artist : String) (d : Int) (g : MusicGenre) (y : Option Int)
    (t : Track) (h : Track.construct title artist d g y = .ok t) :
    t = ⟨title, artist, d, g, y⟩ := by
  rw [Track.construct.eq_def] at h
  split at h
  · cases h
  · split at h
    · cases h
    · split at h
      · cases h
      · split at h
        · split at h
          · cases h
          · cases h; rfl
        · cases h; rfl

/-! ### JSON object lookup -/

theorem jlookup_cons (k' : String) (v : Json) (rest : List (String × Json)) (k : String) :
    jlookup ((k', v) :: rest) k = if k' = k then some v else jlookup rest k := by
  by_cases h : k' = k <;> simp [jlookup, List.find?_cons, h]

/-! ### Genre scan -/

theorem lookup_genre_value (g : MusicGenre) : lookup_genre (Json.str g.value) = g := by
  cases g <;> rfl

theorem mem_all (g : MusicGenre) : g ∈ MusicGenre.all := by
  cases g <;> decide

theorem all_nodup : MusicGenre.all.Nodup := by decide

theorem value_injective (g1 g2 : MusicGenre) (h : g1.value = g2.value) : g1 = g2 := by
  cases g1 <;> cases g2 <;> first | rfl | (exfalso; revert h; decide)

theorem lookup_genre_unmatched (v : Json) (h : ∀ g : MusicGenre, v ≠ Json.str g.value) :
    lookup_genre v = MusicGenre.OTHER := by
  match v with
  | Json.null => rfl
  | Json.bool b => rfl
  | Json.num n => rfl
  | Json.arr xs => rfl
  | Json.obj kvs => rfl
  | Json.str s =>
    rw [lookup_genre]
    have : MusicGenre.all.find? (fun g => g.value = s) = none := by
      rw [List.find?_eq_none]
      intro g _ hg
      exact h g (by simp_all)
    rw [this]
    rfl

/-! ### from_dict of to_dict -/

theorem to_dict_lookup_duration (t : Track) :
    jlookup [("title", Json.str t.title), ("artist", Json.str t.artist),
      ("duration", Json.str t.duration_str), ("genre", Json.str t.genre.value),
      ("year", match t.year with | some y => Json.num y | none => Json.null)] "duration" =
      some (Json.str t.duration_str) := by
  rw [jlookup_cons, if_neg (by decide), jlookup_cons, if_neg (by decide),
    jlookup_cons, if_pos rfl]

theorem to_dict_lookup_title (t : Track) :
    jlookup [("title", Json.str t.title), ("artist", Json.str t.artist),
      ("duration", Json.str t.duration_str), ("genre", Json.str t.genre.value),
      ("year", match t.year with | some y => Json.num y | none => Json.null)] "title" =
      some (Json.str t.title) := by
  rw [jlookup_cons, if_pos rfl]

theorem to_dict_lookup_artist (t : Track) :
    jlookup [("title", Json.str t.title), ("artist", Json.str t.artist),
      ("duration", Json.str t.duration_str), ("genre", Json.str t.genre.value),
      ("year", match t.year with | some y => Json.num y | none => Json.null)] "artist" =
      some (Json.str t.artist) := by
  rw [jlookup_cons, if_neg (by decide), jlookup_cons, if_pos rfl]

theorem to_dict_lookup_genre (t : Track) :
    jlookup [("title", Json.str t.title), ("artist", Json.str t.artist),
      ("duration", Json.str t.duration_str), ("genre", Json.str t.genre.value),
      ("year", match t.year with | some y => Json.num y | none => Json.null)] "genre" =
      some (Json.str t.genre.value) := by
  rw [jlookup_cons, if_neg (by decide), jlookup_cons, if_neg (by decide),
    jlookup_cons, if_neg (by decide), jlookup_cons, if_pos rfl]

theorem to_dict_lookup_year (t : Track) :
    jlookup [("title", Json.str t.title), ("artist", Json.str t.artist),
      ("duration", Json.str t.duration_str), ("genre", Json.str t.genre.value),
      ("year", match t.year with | some y => Json.num y | none => Json.null)] "year" =
      some (match t.year with | some y => Json.num y | none => Json.null) := by
  rw [jlookup_cons, if_neg (by decide), jlookup_cons, if_neg (by decide),
    jlookup_cons, if_neg (by decide), jlookup_cons, if_neg (by decide),
    jlookup_cons, if_pos rfl]

theorem year_from_json_to_dict (t : Track) :
    year_from_json (some (match t.year with | some y => Json.num y | none => Json.null)) =
      .ok t.year := by
  cases t.year <;> rfl

theorem from_dict_to_dict (t : Track) (h : t.Valid) :
    Track.from_dict t.to_dict = .ok t := by
  obtain ⟨h1, h2, h3, h4⟩ := h
  rw [Track.to_dict, Track.from_dict]
  simp only [to_dict_lookup_duration, to_dict_lookup_genre, to_dict_lookup_title,
    to_dict_lookup_artist, to_dict_lookup_year, parse_duration_duration_str t h3,
    year_from_json_to_dict, Option.getD_some, lookup_genre_value,
    construct_ok t.title t.artist t.duration t.genre t.year h1 h2 h3 h4]

theorem from_dict_duration_error (kvs : List (String × Json)) (ds : String) (e : TrackErr)
    (hd : jlookup kvs "duration" = some (Json.str ds))
    (hpd : parse_duration ds = .error e) :
    Track.from_dict (Json.obj kvs) = .error e := by
  simp only [Track.from_dict, hd, hpd]

theorem from_dict_genre (kvs : List (String × Json)) (t : Track)
    (h : Track.from_dict (Json.obj kvs) = .ok t) :
    t.genre = lookup_genre ((jlookup kvs "genre").getD (Json.str "Другое")) := by
  simp only [Track.from_dict] at h
  repeat' split at h
  all_goals
    first
      | (exfalso; exact absurd h (by simp))
      | (rw [construct_ok_inv _ _ _ _ _ _ h])

/-! ### Loading -/

theorem loadTracks_map_to_dict (ts : List Track) (h : ∀ u ∈ ts, u.Valid) :
    loadTracks (ts.map Track.to_dict) = (ts, 0) := by
  induction ts with
  | nil => rfl
  | cons t rest ih =>
    rw [List.map_cons]
    simp only [loadTracks, ih (fun u hu => h u (List.mem_cons_of_mem t hu)),
      from_dict_to_dict t (h t (List.mem_cons_self t rest))]

theorem save_lookup_name (p : Playlist) :
    jlookup [("playlist_name", p.name), ("tracks", Json.arr (p.tracks.map Track.to_dict))]
      "playlist_name" = some p.name := by
  rw [jlookup_cons, if_pos rfl]

theorem save_lookup_tracks (p : Playlist) :
    jlookup [("playlist_name", p.name), ("tracks", Json.arr (p.tracks.map Track.to_dict))]
      "tracks" = some (Json.arr (p.tracks.map Track.to_dict)) := by
  rw [jlookup_cons, if_neg (by decide), jlookup_cons, if_pos rfl]

theorem load_save (p q : Playlist) (h : ∀ u ∈ p.tracks, u.Valid) :
    q.load_from_json (some p.save_to_json) = ⟨true, ⟨p.name, p.tracks⟩, 0⟩ := by
  simp only [Playlist.load_from_json, Playlist.save_to_json, save_lookup_name,
    save_lookup_tracks, Option.getD_some, jsonIter, loadTracks_map_to_dict p.tracks h]

theorem loadTracks_filterMap (items : List Json) :
    (loadTracks items).1 = items.filterMap (fun j => (Track.from_dict j).toOption) := by
  induction items with
  | nil => rfl
  | cons j rest ih =>
    rw [List.filterMap_cons]
    cases hj : Track.from_dict j with
    | ok t => simp only [loadTracks, hj, ih, Except.toOption]
    | error e => simp only [loadTracks, hj, ih, Except.toOption]

theorem loadTracks_count (items : List Json) :
    (loadTracks items).2 + (loadTracks items).1.length = items.length := by
  induction items with
  | nil => rfl
  | cons j rest ih =>
    cases hj : Track.from_dict j with
    | ok t =>
      simp only [loadTracks, hj, List.length_cons, List.length]
      omega
    | error e =>
      simp only [loadTracks, hj, List.length_cons, List.length]
      omega

theorem load_obj_with_tracks (q : Playlist) (kvs : List (String × Json)) (items : List Json)
    (h : jlookup kvs "tracks" = some (Json.arr items)) :
    q.load_from_json (some (Json.obj kvs)) =
      ⟨true, ⟨(jlookup kvs "playlist_name").getD q.name, (loadTracks items).1⟩,
        (loadTracks items).2⟩ := by
  simp only [Playlist.load_from_json, h, Option.getD_some, jsonIter]

theorem load_obj_no_tracks (q : Playlist) (kvs : List (String × Json))
    (h : jlookup kvs "tracks" = none) :
    q.load_from_json (some (Json.obj kvs)) =
      ⟨true, ⟨(jlookup kvs "playlist_name").getD q.name, []⟩, 0⟩ := by
  simp only [Playlist.load_from_json, h, Option.getD_none, jsonIter, loadTracks]

/-! ### Statistics -/

theorem sum_map_add_nat {α : Type} (l : List α) (f g : α → Nat) :
    (l.map (fun x => f x + g x)).sum = (l.map f).sum + (l.map g).sum := by
  induction l with
  | nil => rfl
  | cons a l ih =>
    simp only [List.map_cons, List.sum_cons, ih]
    omega

theorem genre_indicator_sum (x : MusicGenre) :
    (MusicGenre.all.map (fun g => if x = g then 1 else 0)).sum = 1 := by
  cases x <;> decide

theorem filter_genre_cons (t : Track) (ts : List Track) (g : MusicGenre) :
    (List.filter (fun u => u.genre == g) (t :: ts)).length =
      (if t.genre = g then 1 else 0) + (List.filter (fun u => u.genre == g) ts).length := by
  rw [List.filter_cons]
  by_cases h : t.genre = g
  · simp [h]
    omega
  · simp [h]

theorem genre_counts_sum (ts : List Track) :
    (MusicGenre.all.map (fun g => (List.filter (fun u => u.genre == g) ts).length)).sum
      = ts.length := by
  induction ts with
  | nil => simp [List.filter_nil]
  | cons t ts ih =>
    have hcong : MusicGenre.all.map
        (fun g => (List.filter (fun u => u.genre == g) (t :: ts)).length) =
        MusicGenre.all.map (fun g =>
          (if t.genre = g then 1 else 0) + (List.filter (fun u => u.genre == g) ts).length) := by
      apply List.map_congr_left
      intro g _
      exact filter_genre_cons t ts g
    rw [hcong, sum_map_add_nat, genre_indicator_sum, ih, List.length_cons]
    omega

theorem filterMap_if_pos (gs : List MusicGenre) (f : MusicGenre → Nat) :
    (gs.filterMap (fun g => if 0 < f g then some (g.value, f g) else none)) =
      ((gs.map (fun g => (g.value, f g))).filter (fun x => 0 < x.2)) := by
  induction gs with
  | nil => rfl
  | cons g gs ih =>
    rw [List.filterMap_cons, List.map_cons, List.filter_cons]
    by_cases h : 0 < f g
    · simp only [if_pos h, ih]
      simp [h]
    · simp only [if_neg h, ih]
      simp [h]

theorem statistics_genres_eq (p : Playlist) :
    p.statistics_genres =
      ((MusicGenre.all.map (fun g => (g.value, (p.get_tracks_by_genre g).length))).filter
        (fun x => 0 < x.2)) :=
  filterMap_if_pos MusicGenre.all (fun g => (p.get_tracks_by_genre g).length)

theorem sum_filter_pos (l : List (String × Nat)) :
    ((l.filter (fun x => 0 < x.2)).map (fun x => x.2)).sum = (l.map (fun x => x.2)).sum := by
  induction l with
  | nil => rfl
  | cons a l ih =>
    rw [List.filter_cons]
    by_cases h : 0 < a.2
    · rw [if_pos (by simpa using h)]
      simp only [List.map_cons, List.sum_cons, ih]
    · have ha : a.2 = 0 := by omega
      rw [if_neg (by simpa using h)]
      simp only [List.map_cons, List.sum_cons, ih, ha]
      omega

/-! ### Concrete data used by the claim instances -/

instance (t : Track) : Decidable t.Valid := by
  unfold Track.Valid
  infer_instance

def trackQueen : Track := ⟨"Bohemian Rhapsody", "Queen", 355, .ROCK, some 1975⟩

def trackImagine : Track := ⟨"Imagine", "John Lennon", 183, .POP, none⟩

def trackTakeFive : Track := ⟨"Take Five", "Dave Brubeck", 324, .JAZZ, some 1959⟩

def demoPlaylist : Playlist :=
  ⟨Json.str "Мой плейлист", [trackQueen, trackImagine, trackTakeFive]⟩

def freshPlaylist : Playlist := ⟨Json.str "fresh", []⟩

/-- A record whose duration text does not parse: skipped on load. -/
def badRecord : Json :=
  Json.obj [("title", Json.str "X"), ("artist", Json.str "Y"), ("duration", Json.str "bad")]

def goodRecord1 : Json :=
  Json.obj [("title", Json.str "A"), ("artist", Json.str "B"),
    ("duration", Json.str "3:05"), ("genre", Json.str "Рок"), ("year", Json.num 1999)]

/-- A record with an unknown genre label and no year key. -/
def goodRecord2 : Json :=
  Json.obj [("title", Json.str "C"), ("artist", Json.str "D"),
    ("duration", Json.str "1:02:03"), ("genre", Json.str "Неизвестно")]

def mixedRecords : List Json := [badRecord, goodRecord1, goodRecord2]

def trackPaddedArtist : Track := ⟨"Song", "Queen ", 180, .OTHER, none⟩

def oldPlaylist : Playlist := ⟨Json.str "Old", [trackQueen]⟩

/-- A parsed file whose top level is a dict but whose tracks value cannot be
iterated: the load fails only after mutating the playlist. -/
def crashInput : Json :=
  Json.obj [("playlist_name", Json.str "New"), ("tracks", Json.num 42)]

/-! ### The claims -/

/-- C1: for every track satisfying the construction invariants (with a
whole-second duration, as the model fixes), `from_dict` of `to_dict`
succeeds and returns the identical track, hence
`to_dict ∘ from_dict ∘ to_dict = to_dict`; and loading a saved playlist
into any fresh playlist reproduces the name and the exact track list
(count, order and fields, an absent year included). -/
theorem spec_c1_record_and_file_round_trip (t : Track) (p q : Playlist)
    (ht : t.Valid) (hp : ∀ u ∈ p.tracks, u.Valid) :
    Track.from_dict t.to_dict = .ok t ∧
    (Track.from_dict t.to_dict).map Track.to_dict = .ok t.to_dict ∧
    q.load_from_json (some p.save_to_json) = ⟨true, ⟨p.name, p.tracks⟩, 0⟩ := by
  refine ⟨from_dict_to_dict t ht, ?_, load_save p q hp⟩
  rw [from_dict_to_dict t ht]
  rfl

/-- C1 witness: the round trip at a concrete three-track playlist, one
track without a year. -/
theorem spec_c1_record_and_file_round_trip_witness :
    Track.from_dict (Track.to_dict trackImagine) = .ok trackImagine ∧
    Playlist.load_from_json freshPlaylist (some demoPlaylist.save_to_json) =
      ⟨true, ⟨demoPlaylist.name, demoPlaylist.tracks⟩, 0⟩ := by
  have h1 := spec_c1_record_and_file_round_trip trackImagine demoPlaylist freshPlaylist
    (by decide) (by decide)
  exact ⟨h1.1, h1.2.2⟩

theorem construct_eq_emptyTitle (ti ar : String) (d : Int) (g : MusicGenre) (y : Option Int)
    (h1 : pyStrip ti = "") : Track.construct ti ar d g y = .error .emptyTitle := by
  rw [Track.construct.eq_def, if_pos h1]

theorem construct_eq_emptyArtist (ti ar : String) (d : Int) (g : MusicGenre) (y : Option Int)
    (h1 : pyStrip ti ≠ "") (h2 : pyStrip ar = "") :
    Track.construct ti ar d g y = .error .emptyArtist := by
  rw [Track.construct.eq_def, if_neg h1, if_pos h2]

theorem construct_eq_nonPositive (ti ar : String) (d : Int) (g : MusicGenre) (y : Option Int)
    (h1 : pyStrip ti ≠ "") (h2 : pyStrip ar ≠ "") (h3 : d ≤ 0) :
    Track.construct ti ar d g y = .error .nonPositiveDuration := by
  rw [Track.construct.eq_def, if_neg h1, if_neg h2, if_pos h3]

theorem construct_eq_yearOut (ti ar : String) (d : Int) (g : MusicGenre) (z : Int)
    (h1 : pyStrip ti ≠ "") (h2 : pyStrip ar ≠ "") (h3 : ¬(d ≤ 0))
    (h4 : z < 1900 ∨ z > 2100) :
    Track.construct ti ar d g (some z) = .error .yearOutOfRange := by
  rw [Track.construct.eq_def, if_neg h1, if_neg h2, if_neg h3]
  simp only [if_pos h4]

/-- C2: `Track` construction succeeds exactly when the four invariants
hold, fails with the error naming the first violated field otherwise, and
fails on each of the six specific invalid inputs of the specification. -/
theorem spec_c2_construction_validation (ti ar : String) (d : Int) (g : MusicGenre)
    (y : Option Int) :
    (((∃ t, Track.construct ti ar d g y = .ok t) ↔
        (pyStrip ti ≠ "" ∧ pyStrip ar ≠ "" ∧ 0 < d ∧ ∀ z ∈ y, 1900 ≤ z ∧ z ≤ 2100)) ∧
      (Track.construct ti ar d g y = .error .emptyTitle ↔ pyStrip ti = "") ∧
      (Track.construct ti ar d g y = .error .emptyArtist ↔
        (pyStrip ti ≠ "" ∧ pyStrip ar = "")) ∧
      (Track.construct ti ar d g y = .error .nonPositiveDuration ↔
        (pyStrip ti ≠ "" ∧ pyStrip ar ≠ "" ∧ d ≤ 0)) ∧
      (Track.construct ti ar d g y = .error .yearOutOfRange ↔
        (pyStrip ti ≠ "" ∧ pyStrip ar ≠ "" ∧ 0 < d ∧
          ∃ z ∈ y, z < 1900 ∨ 2100 < z))) ∧
    Track.construct "" "Queen" 60 .OTHER none = .error .emptyTitle ∧
    Track.construct "   " "Queen" 60 .OTHER none = .error .emptyTitle ∧
    Track.construct "Song" "Queen" 0 .OTHER none = .error .nonPositiveDuration ∧
    Track.construct "Song" "Queen" (-10) .OTHER none = .error .nonPositiveDuration ∧
    Track.construct "Song" "Queen" 60 .OTHER (some 1899) = .error .yearOutOfRange ∧
    Track.construct "Song" "Queen" 60 .OTHER (some 2101) = .error .yearOutOfRange := by
  refine ⟨?_, by decide, by decide, by decide, by decide, by decide, by decide⟩
  by_cases h1 : pyStrip ti = ""
  · simp only [construct_eq_emptyTitle ti ar d g y h1]
    simp [h1]
  · by_cases h2 : pyStrip ar = ""
    · simp only [construct_eq_emptyArtist ti ar d g y h1 h2]
      simp [h1, h2]
    · by_cases h3 : d ≤ 0
      · simp only [construct_eq_nonPositive ti ar d g y h1 h2 h3]
        simp [h1, h2, h3]
      · cases y with
        | none =>
          simp only [construct_ok ti ar d g none h1 h2 (by omega) (by simp)]
          simp [h1, h2, h3]
          omega
        | some z =>
          by_cases h4 : z < 1900 ∨ z > 2100
          · simp only [construct_eq_yearOut ti ar d g z h1 h2 h3 h4]
            simp [h1, h2, h3]
            omega
          · simp only [construct_ok ti ar d g (some z) h1 h2 (by omega)
              (by intro w hw; simp only [Option.mem_def, Option.some_inj] at hw; omega)]
            simp [h1, h2, h3]
            omega

/-- C3 (amended): a load that fails before a top-level JSON dict is
obtained — file not found, malformed JSON, an I/O error, or a top-level
value that is not a dict — leaves the playlist's name and track list
unchanged; and once the top level is a dict, the only remaining failure is
a non-iterable `tracks` value (which strikes after the name has been
replaced and the track list cleared, see the counterexample). -/
theorem spec_c3_load_failure_state (p : Playlist) (j : Option Json) :
    ((∀ kvs : List (String × Json), j ≠ some (Json.obj kvs)) →
      p.load_from_json j = ⟨false, p, 0⟩) ∧
    (∀ kvs : List (String × Json),
      (p.load_from_json (some (Json.obj kvs))).ok = false →
        jsonIter ((jlookup kvs "tracks").getD (Json.arr [])) = none) := by
  constructor
  · intro hj
    match j with
    | none => rfl
    | some Json.null => rfl
    | some (Json.bool b) => rfl
    | some (Json.num n) => rfl
    | some (Json.str s) => rfl
    | some (Json.arr xs) => rfl
    | some (Json.obj kvs) => exact absurd rfl (hj kvs)
  · intro kvs hok
    cases hit : jsonIter ((jlookup kvs "tracks").getD (Json.arr [])) with
    | none => rfl
    | some items =>
      simp only [Playlist.load_from_json, hit] at hok
      exact absurd hok (by simp)

/-- C3 counterexample: on the parsed file
`{"playlist_name": "New", "tracks": 42}` the load reports failure, yet the
name has been replaced and the track list cleared — the prior in-memory
state is not preserved on this failure, contradicting the claim. -/
theorem spec_c3_load_failure_counterexample :
    (oldPlaylist.load_from_json (some crashInput)).ok = false ∧
    (oldPlaylist.load_from_json (some crashInput)).playlist.name = Json.str "New" ∧
    (oldPlaylist.load_from_json (some crashInput)).playlist.tracks = [] ∧
    oldPlaylist.name = Json.str "Old" ∧
    oldPlaylist.tracks = [trackQueen] ∧
    (oldPlaylist.load_from_json (some crashInput)).playlist.tracks ≠ oldPlaylist.tracks := by
  exact ⟨rfl, rfl, rfl, rfl, rfl, by decide⟩

/-- C4: when the parsed file is a dict whose `tracks` key holds a list,
the load succeeds; records whose `from_dict` raises are skipped while the
remaining records are loaded in order, and the skip count accounts for the
difference; on the concrete file with one malformed and two well-formed
records, exactly 2 tracks load with 1 reported skip. -/
theorem spec_c4_per_record_tolerance (q : Playlist) (kvs : List (String × Json))
    (items : List Json) (h : jlookup kvs "tracks" = some (Json.arr items)) :
    (q.load_from_json (some (Json.obj kvs))).ok = true ∧
    (q.load_from_json (some (Json.obj kvs))).playlist.tracks =
      items.filterMap (fun j => (Track.from_dict j).toOption) ∧
    (q.load_from_json (some (Json.obj kvs))).skipped +
      (q.load_from_json (some (Json.obj kvs))).playlist.tracks.length = items.length ∧
    (freshPlaylist.load_from_json (some (Json.obj [("tracks", Json.arr mixedRecords)]))).ok
      = true ∧
    (freshPlaylist.load_from_json
      (some (Json.obj [("tracks", Json.arr mixedRecords)]))).playlist.tracks.length = 2 ∧
    (freshPlaylist.load_from_json
      (some (Json.obj [("tracks", Json.arr mixedRecords)]))).skipped = 1 := by
  rw [load_obj_with_tracks q kvs items h]
  exact ⟨rfl, loadTracks_filterMap items, loadTracks_count items, rfl, rfl, rfl⟩

/-- C4 witness: the general statement applied to the concrete mixed file. -/
theorem spec_c4_per_record_tolerance_witness :
    (freshPlaylist.load_from_json (some (Json.obj [("tracks", Json.arr mixedRecords)]))).ok
      = true :=
  (spec_c4_per_record_tolerance freshPlaylist [("tracks", Json.arr mixedRecords)]
    mixedRecords rfl).1

/-- C5 (amended): `get_tracks_by_artist` strips and lowercases the query
but only lowercases each track's artist: it returns, in their original
order, exactly the tracks whose lowercased (untrimmed) artist equals the
lowercased trimmed query; the track with artist `"Queen"` is returned for
the query `"  queen  "`. -/
theorem spec_c5_find_by_artist (p : Playlist) (a : String) :
    (p.get_tracks_by_artist a).Sublist p.tracks ∧
    (∀ t : Track, t ∈ p.get_tracks_by_artist a ↔
      (t ∈ p.tracks ∧ pyLower t.artist = pyLower (pyStrip a))) ∧
    (⟨Json.str "P", [trackQueen]⟩ : Playlist).get_tracks_by_artist "  queen  " =
      [trackQueen] := by
  refine ⟨List.filter_sublist p.tracks, ?_, by decide⟩
  intro t
  rw [Playlist.get_tracks_by_artist, List.mem_filter]
  simp

/-- C5 counterexample: the track with artist `"Queen "` (trailing blank)
is a validly constructed track whose artist equals the query `"Queen"`
under the claim's trimmed case-insensitive comparison, yet the function
does not return it — the track side is not trimmed. -/
theorem spec_c5_find_by_artist_counterexample :
    Track.construct "Song" "Queen " 180 .OTHER none = .ok trackPaddedArtist ∧
    pyLower (pyStrip trackPaddedArtist.artist) = pyLower (pyStrip "Queen") ∧
    (⟨Json.str "P", [trackPaddedArtist]⟩ : Playlist).get_tracks_by_artist "Queen" = [] := by
  exact ⟨by decide, by decide, by decide⟩

/-- C6: the duration text is split on `:`; exactly 2 parts are read as
minutes:seconds and exactly 3 as hours:minutes:seconds, while any other
part count makes `from_dict` fail with the format error (a constructor
distinct from every validation error); in particular `"bad"` (one part)
and `"1:2:3:4"` (four parts) each fail that way. -/
theorem spec_c6_duration_parts (kvs : List (String × Json)) (ds : String)
    (hd : jlookup kvs "duration" = some (Json.str ds)) :
    ((pySplitColon ds).length ≠ 2 → (pySplitColon ds).length ≠ 3 →
      Track.from_dict (Json.obj kvs) = .error (.formatError ds)) ∧
    (∀ (a b : String) (x y : Int), pySplitColon ds = [a, b] →
      parseInt a = some x → parseInt b = some y →
        parse_duration ds = .ok (x * 60 + y)) ∧
    (∀ (a b c : String) (x y z : Int), pySplitColon ds = [a, b, c] →
      parseInt a = some x → parseInt b = some y → parseInt c = some z →
        parse_duration ds = .ok (x * 3600 + y * 60 + z)) ∧
    (∀ s : String, TrackErr.formatError s ≠ .emptyTitle ∧
      TrackErr.formatError s ≠ .emptyArtist ∧
      TrackErr.formatError s ≠ .nonPositiveDuration ∧
      TrackErr.formatError s ≠ .yearOutOfRange) ∧
    parse_duration "bad" = .error (.formatError "bad") ∧
    parse_duration "1:2:3:4" = .error (.formatError "1:2:3:4") ∧
    Track.from_dict badRecord = .error (.formatError "bad") ∧
    Track.from_dict (Json.obj [("title", Json.str "X"), ("artist", Json.str "Y"),
      ("duration", Json.str "1:2:3:4")]) = .error (.formatError "1:2:3:4") := by
  refine ⟨?_, ?_, ?_, ?_, by decide, by decide, by decide, by decide⟩
  · intro h2 h3
    exact from_dict_duration_error kvs ds _ hd (parse_duration_bad_parts ds h2 h3)
  · intro a b x y hsplit ha hb
    exact parse_duration_two ds a b hsplit x y ha hb
  · intro a b c x y z hsplit ha hb hc
    exact parse_duration_three ds a b c hsplit x y z ha hb hc
  · intro s
    exact ⟨by simp, by simp, by simp, by simp⟩

/-- C6 witness: the general statement at the record whose duration text is
`"bad"`. -/
theorem spec_c6_duration_parts_witness :
    Track.from_dict badRecord = .error (.formatError "bad") :=
  (spec_c6_duration_parts [("title", Json.str "X"), ("artist", Json.str "Y"),
    ("duration", Json.str "bad")] "bad" rfl).2.2.2.2.2.2.1

/-- C7: `duration_str` renders `MM:SS`: the text splits at the single `:`
into a minutes part (the floor of seconds by 60, uncapped — no hour
wraparound) and a seconds part (the remainder), both all digits and
zero-padded to a minimum width of two; 125 seconds renders `"02:05"` and
3661 seconds renders `"61:01"`. -/
theorem spec_c7_duration_display (t : Track) (h : 0 < t.duration) :
    (∃ mm ss : List Char,
      t.duration_str.data = mm ++ ':' :: ss ∧
      pySplitChars ':' t.duration_str.data = [mm, ss] ∧
      parseIntChars mm = some (Int.fdiv t.duration 60) ∧
      parseIntChars ss = some (Int.fmod t.duration 60) ∧
      (∀ c ∈ mm, c.isDigit) ∧ (∀ c ∈ ss, c.isDigit) ∧
      2 ≤ mm.length ∧ ss.length = 2) ∧
    Track.duration_str ⟨"Song", "Artist", 125, .OTHER, none⟩ = "02:05" ∧
    Track.duration_str ⟨"Song", "Artist", 3661, .OTHER, none⟩ = "61:01" := by
  obtain ⟨n, hn⟩ : ∃ n : Nat, t.duration = (n : Int) :=
    ⟨t.duration.toNat, (Int.toNat_of_nonneg (le_of_lt h)).symm⟩
  refine ⟨⟨pyFmt02Chars ((n / 60 : Nat) : Int), pyFmt02Chars ((n % 60 : Nat) : Int),
    duration_str_data t n hn, ?_, ?_, ?_, pyFmt02Chars_digits _, pyFmt02Chars_digits _,
    pyFmt02Chars_len_ge2 _, pyFmt02Chars_len2 _ (by omega)⟩, by decide, by decide⟩
  · rw [duration_str_data t n hn,
      pySplitChars_append ':' _ _ (pyFmt02Chars_no_colon _),
      pySplitChars_no_sep ':' _ (pyFmt02Chars_no_colon _)]
  · rw [pyFmt02Chars_parse, hn, int_fdiv_60]
  · rw [pyFmt02Chars_parse, hn, int_fmod_60]

/-- C7 witness: the display statement at the 125-second track. -/
theorem spec_c7_duration_display_witness :
    Track.duration_str ⟨"Song", "Artist", 125, .OTHER, none⟩ = "02:05" :=
  (spec_c7_duration_display ⟨"Song", "Artist", 125, .OTHER, none⟩ (by decide)).2.1

/-- C8: the genres entry of the statistics lists exactly the genres with
at least one track, keyed by display label, in the enumeration's declared
order (its keys form a subsequence of the declared label order), and the
listed counts sum to the total track count. -/
theorem spec_c8_statistics_genres (p : Playlist) :
    (p.statistics_genres.map (fun x => x.1)).Sublist
      (MusicGenre.all.map MusicGenre.value) ∧
    (∀ g : MusicGenre, g.value ∈ p.statistics_genres.map (fun x => x.1) ↔
      1 ≤ (p.get_tracks_by_genre g).length) ∧
    (∀ lc ∈ p.statistics_genres, ∃ g : MusicGenre,
      lc.1 = g.value ∧ lc.2 = (p.get_tracks_by_genre g).length ∧ 1 ≤ lc.2) ∧
    (p.statistics_genres.map (fun x => x.2)).sum = p.tracks.length := by
  refine ⟨?_, ?_, ?_, ?_⟩
  · rw [statistics_genres_eq]
    have hsub := (List.filter_sublist (l :=
      MusicGenre.all.map (fun g => (g.value, (p.get_tracks_by_genre g).length)))
      (p := fun x => 0 < x.2)).map (fun x : String × Nat => x.1)
    rw [List.map_map] at hsub
    exact hsub
  · intro g
    rw [statistics_genres_eq]
    constructor
    · intro hmem
      rcases List.mem_map.mp hmem with ⟨lc, hlc, hfst⟩
      rcases List.mem_filter.mp hlc with ⟨hmap, hpos⟩
      rcases List.mem_map.mp hmap with ⟨g2, _, hg2⟩
      subst hg2
      have hgg : g2 = g := value_injective g2 g hfst
      subst hgg
      simpa using hpos
    · intro hcount
      apply List.mem_map.mpr
      refine ⟨(g.value, (p.get_tracks_by_genre g).length), ?_, rfl⟩
      apply List.mem_filter.mpr
      refine ⟨List.mem_map.mpr ⟨g, mem_all g, rfl⟩, by simpa using hcount⟩
  · intro lc hlc
    rw [statistics_genres_eq] at hlc
    rcases List.mem_filter.mp hlc with ⟨hmap, hpos⟩
    rcases List.mem_map.mp hmap with ⟨g, _, hg⟩
    exact ⟨g, by rw [← hg], by rw [← hg], by simp at hpos; omega⟩
  · rw [statistics_genres_eq, sum_filter_pos, List.map_map]
    exact genre_counts_sum p.tracks

/-- C9: `from_dict` resolves the genre by scanning every known genre for a
display-label match (each label is found and maps to its genre); an absent
genre key yields `OTHER`, and a present but unmatched value falls back to
`OTHER` silently — the record still loads. -/
theorem spec_c9_genre_resolution (kvs : List (String × Json)) (v : Json) (t : Track) :
    (∀ g : MusicGenre, g ∈ MusicGenre.all ∧ lookup_genre (Json.str g.value) = g) ∧
    (jlookup kvs "genre" = none → Track.from_dict (Json.obj kvs) = .ok t →
      t.genre = MusicGenre.OTHER) ∧
    ((∀ g : MusicGenre, v ≠ Json.str g.value) → lookup_genre v = MusicGenre.OTHER) ∧
    (jlookup kvs "genre" = some v → (∀ g : MusicGenre, v ≠ Json.str g.value) →
      Track.from_dict (Json.obj kvs) = .ok t → t.genre = MusicGenre.OTHER) ∧
    Track.from_dict goodRecord2 = .ok ⟨"C", "D", 3723, MusicGenre.OTHER, none⟩ := by
  refine ⟨fun g => ⟨mem_all g, lookup_genre_value g⟩, ?_, lookup_genre_unmatched v,
    ?_, by decide⟩
  · intro hnone hok
    rw [from_dict_genre kvs t hok, hnone]
    rfl
  · intro hsome hun hok
    rw [from_dict_genre kvs t hok, hsome]
    exact lookup_genre_unmatched v hun

/-- C10: loading a parsed file that is a dict without a `tracks` key
succeeds and leaves zero tracks — the prior track list is cleared and
nothing replaces it — while the name is taken from `playlist_name` when
that key is present (and kept otherwise). -/
theorem spec_c10_missing_tracks_key (p : Playlist) (kvs : List (String × Json))
    (h : jlookup kvs "tracks" = none) :
    p.load_from_json (some (Json.obj kvs)) =
      ⟨true, ⟨(jlookup kvs "playlist_name").getD p.name, []⟩, 0⟩ :=
  load_obj_no_tracks p kvs h

/-- C10 witness: a dict with only a `playlist_name` key, loaded over the
demo playlist: success, renamed, zero tracks. -/
theorem spec_c10_missing_tracks_key_witness :
    Playlist.load_from_json demoPlaylist
      (some (Json.obj [("playlist_name", Json.str "Новый")])) =
      ⟨true, ⟨Json.str "Новый", []⟩, 0⟩ :=
  spec_c10_missing_tracks_key demoPlaylist [("playlist_name", Json.str "Новый")] rfl
